import Mathlib

/-! Shallow embedding of the printing-management system's inventory-ledger,
machine-usage, expense-allocation and job-lifecycle services
(app/services/material_service.py, app/services/job_service_v2.py,
app/services/machine_service.py, and the models in app/models/).

Monetary amounts, stock levels and meter readings are Python floats in the
source; they are modelled as rationals. Database rows live in explicit
list-valued states. `BaseModel.save()` in app/models/init commits
immediately (db.session.add + db.session.commit), so the embedding applies
each save to the state as soon as the source calls it; a raise that happens
before a save leaves the persisted state untouched, and a later
`db.session.rollback()` cannot undo rows that a save already committed. -/

/-- Error kinds raised along the embedded paths. The validation checks raise
ValueError with a message string; each such constructor records which check
failed. `typeError` is Python's TypeError, raised when an ORM constructor is
passed a keyword that the model does not map; `integrityError` is
SQLAlchemy's IntegrityError, raised when an INSERT violates a NOT NULL
column constraint. -/
inductive Err where
  | notFound
  | invalidQuantity
  | insufficientStock
  | invalidTransition
  | invalidRange
  | missingReason
  | typeError
  | integrityError
deriving DecidableEq

/-- app/models/materials.py: Material, restricted to the fields the embedded
operations read or write. -/
structure Material where
  id : Nat
  stock_level : ℚ
  unit_of_measure : String
  min_threshold : ℚ
  cost_per_unit : ℚ
deriving DecidableEq

/-- app/models/materials.py: MaterialUsage row. The cost column
(materials.py:74) is declared nullable=False; the field is an Option because
the Python attribute is None until someone sets it — and
MaterialService.record_material_usage never does. -/
structure MaterialUsage where
  material_id : Nat
  job_id : Nat
  quantity_used : ℚ
  unit_of_measure : String
  user_id : Nat
  wastage : ℚ
  cost : Option ℚ
  notes : String
deriving DecidableEq

/-- app/models/materials.py: StockTransaction row. The model's
TRANSACTION_TYPES list is ['RESTOCK', 'ADJUSTMENT', 'RETURN']; the services
write the type as a plain string. -/
structure StockTransaction where
  material_id : Nat
  transaction_type : String
  quantity : ℚ
  previous_stock : ℚ
  new_stock : ℚ
  user_id : Nat
  reference_number : Option String
  notes : String
deriving DecidableEq

/-- Payload of MaterialService.record_material_usage (the `data` dict). -/
structure UsageData where
  material_id : Nat
  job_id : Nat
  quantity_used : ℚ
  wastage : ℚ
  user_id : Nat
  notes : String
deriving DecidableEq

/-- Payload of MaterialService.restock_material. -/
structure RestockData where
  material_id : Nat
  quantity : ℚ
  user_id : Nat
  reference_number : Option String
  notes : String
deriving DecidableEq

/-- Payload of MaterialService.adjust_stock. -/
structure AdjustData where
  material_id : Nat
  new_stock_level : ℚ
  user_id : Nat
  reference_number : Option String
  notes : String
deriving DecidableEq

/-- The INSERT run by `usage.save()`: the database rejects a MaterialUsage
row whose NOT NULL cost column (materials.py:74) is unset, raising
IntegrityError; a row with cost set would be stored. -/
def save_material_usage (usage : MaterialUsage) : Except Err MaterialUsage :=
  match usage.cost with
  | none => .error .integrityError
  | some _ => .ok usage

/-- MaterialService.record_material_usage (material_service.py, lines
157-197). `material?` is the result of `Material.query.get(data.material_id)`.
The first component is the committed material row, the second the fate of the
MaterialUsage insert. Past the validation checks, `material.save()` commits
the stock decrement first; `usage.save()` then raises IntegrityError because
the service never sets the NOT NULL cost column — so the decrement stays
committed, no MaterialUsage row is persisted, no StockTransaction is written,
and the call raises. The validation failures raise before any save. -/
def record_material_usage (material? : Option Material) (data : UsageData) :
    Option Material × Except Err MaterialUsage :=
  match material? with
  | none => (none, .error .notFound)
  | some material =>
    let quantity := data.quantity_used
    let wastage := data.wastage
    let total_deduction := quantity + wastage
    if quantity ≤ 0 then (some material, .error .invalidQuantity)
    else if wastage < 0 then (some material, .error .invalidQuantity)
    else if material.stock_level < total_deduction then (some material, .error .insufficientStock)
    else
      let usage : MaterialUsage :=
        { material_id := material.id
          job_id := data.job_id
          quantity_used := quantity
          unit_of_measure := material.unit_of_measure
          user_id := data.user_id
          wastage := wastage
          cost := none
          notes := data.notes }
      let material' := { material with stock_level := material.stock_level - total_deduction }
      (some material', save_material_usage usage)

/-- MaterialService.restock_material (material_service.py, lines 215-256). -/
def restock_material (material? : Option Material) (data : RestockData) :
    Except Err (Material × StockTransaction) :=
  match material? with
  | none => .error .notFound
  | some material =>
    if data.quantity ≤ 0 then .error .invalidQuantity
    else
      let previous_stock := material.stock_level
      let material' := { material with stock_level := material.stock_level + data.quantity }
      let tx : StockTransaction :=
        { material_id := material.id
          transaction_type := "RESTOCK"
          quantity := data.quantity
          previous_stock := previous_stock
          new_stock := material'.stock_level
          user_id := data.user_id
          reference_number := data.reference_number
          notes := data.notes }
      .ok (material', tx)

/-- MaterialService.adjust_stock (material_service.py, lines 258-300). -/
def adjust_stock (material? : Option Material) (data : AdjustData) :
    Except Err (Material × StockTransaction) :=
  match material? with
  | none => .error .notFound
  | some material =>
    if data.new_stock_level < 0 then .error .invalidQuantity
    else
      let previous_stock := material.stock_level
      let quantity_difference := data.new_stock_level - previous_stock
      let tx : StockTransaction :=
        { material_id := material.id
          transaction_type := "ADJUSTMENT"
          quantity := quantity_difference
          previous_stock := previous_stock
          new_stock := data.new_stock_level
          user_id := data.user_id
          reference_number := data.reference_number
          notes := data.notes }
      let material' := { material with stock_level := data.new_stock_level }
      .ok (material', tx)

/-- MaterialService.deduct_material_usage (job_service_v2.py, lines 30-39):
subtracts the usage amount with no stock-sufficiency check and silently does
nothing when the material is missing. -/
def deduct_material_usage (material? : Option Material) (usage_amount : ℚ) :
    Option Material :=
  match material? with
  | none => none
  | some material => some { material with stock_level := material.stock_level - usage_amount }

/-- MachineUsageService.calculate_material_usage (job_service_v2.py, lines
48-56). The source gives material_margin a default of 0.05 = 1/20;
log_machine_usage calls it with that default. -/
def calculate_material_usage (start_meter end_meter material_margin : ℚ) : ℚ :=
  let total_meters := end_meter - start_meter
  total_meters * (1 + material_margin)

/-- Payload of MachineReadingService.create_reading (machine_service.py). -/
structure ReadingData where
  job_id : Nat
  machine_id : Nat
  start_meter : ℚ
  end_meter : ℚ
  operator_id : Option Nat
deriving DecidableEq

/-- MachineReading row as declared in app/models/machine.py (the columns the
create_reading path persists). -/
structure MachineReadingRow where
  machine_id : Nat
  job_id : Nat
  start_meter : ℚ
  end_meter : ℚ
  operator_id : Option Nat
deriving DecidableEq

/-- MachineReadingService.create_reading (machine_service.py, lines 56-98).
`job_found` and `machine_found` are the results of the two existence
queries. The end-meter check precedes both lookups and the save. -/
def create_reading (job_found machine_found : Bool)
    (readings : List MachineReadingRow) (data : ReadingData) :
    Except Err (List MachineReadingRow × MachineReadingRow) :=
  if data.end_meter < data.start_meter then .error .invalidRange
  else if !job_found then .error .notFound
  else if !machine_found then .error .notFound
  else
    let reading : MachineReadingRow :=
      { machine_id := data.machine_id
        job_id := data.job_id
        start_meter := data.start_meter
        end_meter := data.end_meter
        operator_id := data.operator_id }
    .ok (readings ++ [reading], reading)

/-- MachineUsageService.log_machine_usage (job_service_v2.py, lines 58-77):
it computes the margin-adjusted usage and then constructs
`MachineReading(job_id=..., start_meter=..., end_meter=..., material_usage=...)`
against models/machine.MachineReading (re-imported inside the function),
which does not map a material_usage attribute — the constructor raises
TypeError there, before `reading.save()` and before the
`deduct_material_usage` call (and the unset NOT NULL machine_id column would
abort the save anyway). So every call fails with TypeError, persists no
reading and never touches the material's stock. -/
def log_machine_usage (material? : Option Material) (readings : List MachineReadingRow)
    (job_id : Nat) (start_meter end_meter : ℚ) :
    (Option Material × List MachineReadingRow) × Except Err ℚ :=
  let _material_usage := calculate_material_usage start_meter end_meter (1/20)
  ((material?, readings), .error .typeError)

/-- app/models/in_house_printing.py: Material, the separate legacy material
model used by routes/in_house_printing.py and services/job_service.py (its
`type` column is renamed because `type` is reserved). -/
structure InHouseMaterial where
  id : Nat
  name : String
  type_ : String
  stock_level : ℚ
  min_threshold : ℚ
  cost_per_sq_meter : ℚ
deriving DecidableEq

/-- MaterialService.deduct_material_usage (services/job_service.py, lines
12-17, textually the same as the job_service_v2 copy but over the
in_house_printing Material): subtracts the usage amount with no
stock-sufficiency check and commits via material.save(); silently does
nothing when the material is missing. -/
def deduct_material_usage_v1 (material? : Option InHouseMaterial) (usage_amount : ℚ) :
    Option InHouseMaterial :=
  match material? with
  | none => none
  | some material => some { material with stock_level := material.stock_level - usage_amount }

/-- The machine-usage route handler (routes/in_house_printing.py, lines
230-266): after the job and material existence checks it computes the
margin-adjusted usage, calls deduct_material_usage — whose material.save()
commits the unchecked stock change — and only then constructs
`MachineReading(job_id=..., start_meter=..., end_meter=..., material_id=...,
material_usage=...)`. The route imports MachineReading from models/machine,
which maps neither material_id nor material_usage, so the constructor raises
TypeError: the request fails, no reading is persisted, and the committed
stock change (negative when end_meter < start_meter) remains. -/
def log_machine_usage_route (job_found : Bool) (material? : Option InHouseMaterial)
    (readings : List MachineReadingRow) (start_meter end_meter : ℚ) :
    (Option InHouseMaterial × List MachineReadingRow) × Except Err ℚ :=
  if !job_found then ((material?, readings), .error .notFound)
  else
    match material? with
    | none => ((none, readings), .error .notFound)
    | some material =>
      let usage_amount := calculate_material_usage start_meter end_meter (1/20)
      let material' := deduct_material_usage_v1 (some material) usage_amount
      ((material', readings), .error .typeError)

/-- One material's slice of the database: its row plus the StockTransaction
and MaterialUsage rows that reference it. -/
structure LedgerState where
  material : Material
  transactions : List StockTransaction
  usages : List MaterialUsage
deriving DecidableEq

/-- The three stock-mutating inventory operations of MaterialService
(material_service.py). -/
inductive StockOp where
  | restock (data : RestockData)
  | adjust (data : AdjustData)
  | deductUsage (data : UsageData)
deriving DecidableEq

/-- One inventory operation applied to a material's slice of the database.
A validation failure raises before any save and leaves the state unchanged.
A successful restock or adjustment saves the updated material and appends its
transaction row. For a usage recording, whatever material state
record_material_usage committed is kept even when the call raises (the raise
aborts the request, not the already-committed material.save()), and a usage
row is appended only when its save succeeded — which the unset NOT NULL cost
column prevents. -/
def ledger_step (st : LedgerState) (op : StockOp) : LedgerState :=
  match op with
  | .restock d =>
    match restock_material (some st.material) d with
    | .error _ => st
    | .ok (m', tx) => { st with material := m', transactions := st.transactions ++ [tx] }
  | .adjust d =>
    match adjust_stock (some st.material) d with
    | .error _ => st
    | .ok (m', tx) => { st with material := m', transactions := st.transactions ++ [tx] }
  | .deductUsage d =>
    match record_material_usage (some st.material) d with
    | (some m', .ok u) => { st with material := m', usages := st.usages ++ [u] }
    | (some m', .error _) => { st with material := m' }
    | (none, _) => st

/-- Replay of a sequence of inventory operations. -/
def ledger_replay (st : LedgerState) : List StockOp → LedgerState
  | [] => st
  | op :: ops => ledger_replay (ledger_step st op) ops

/-- Sum of the quantity deltas recorded in a list of StockTransaction rows. -/
def txDeltaSum (txs : List StockTransaction) : ℚ :=
  (txs.map (fun tx => tx.quantity)).sum

/-- Whether an operation is a usage deduction (the one operation that writes
no StockTransaction). -/
def StockOp.isDeductUsage : StockOp → Bool
  | .deductUsage _ => true
  | _ => false

/-- app/models/job.py: JobProgressStatus enum. -/
inductive JobProgressStatus where
  | pending
  | in_progress
  | on_hold
  | completed
  | cancelled
deriving DecidableEq

/-- app/models/job.py: Job row, restricted to the fields the embedded
services read or write. Dates and timestamps are abstracted as integers.
The total_cost column has default 0.0, so (unlike its nullable declaration)
it is always set; it is modelled as a plain rational. -/
structure Job where
  id : Nat
  client_id : Nat
  description : String
  progress_status : JobProgressStatus
  job_type : String
  vendor_name : Option String
  vendor_cost_per_unit : ℚ
  total_units : Nat
  pricing_per_unit : ℚ
  start_date : Option Int
  end_date : Option Int
  completed_at : Option Int
  cancelled_at : Option Int
  cancellation_reason : Option String
  last_status_change : Option Int
  total_cost : ℚ
  total_amount : ℚ
  amount_paid : ℚ
  payment_status : String
  total_profit : Option ℚ
deriving DecidableEq

/-- app/models/job.py: JobNote row. -/
structure JobNote where
  job_id : Nat
  note : String
deriving DecidableEq

/-- app/models/expenses.py: JobExpense row, with the fields
ExpenseService._allocate_expense sets (job_id, name, cost); `id` is the
database-assigned primary key. -/
structure JobExpense where
  id : Nat
  job_id : Nat
  name : String
  cost : ℚ
deriving DecidableEq

/-- app/models/job.py: JobTimeframeChangeLog row. -/
structure JobTimeframeChangeLog where
  job_id : Nat
  old_start_date : Option Int
  old_end_date : Option Int
  reason : String
deriving DecidableEq

/-- One expense dict of the creation/allocation payload:
name, cost, shared flag, optional job_ids list. -/
structure ExpenseInput where
  name : String
  cost : ℚ
  shared : Bool
  job_ids : List Nat
deriving DecidableEq

/-- The job-side slice of the database: Job and JobExpense rows plus the
primary-key counters the database assigns on insert. -/
structure JobDB where
  jobs : List Job
  job_expenses : List JobExpense
  next_job_id : Nat
  next_expense_id : Nat
deriving DecidableEq

/-- `Job.query.get(jid)` on the embedded database. -/
def getJob (db : JobDB) (jid : Nat) : Option Job :=
  db.jobs.find? (fun j => j.id = jid)

/-- The save of `primary_job.total_cost += cost` applied to a stored row:
only the row with the primary job's id changes. -/
def bump_total_cost (primary_id : Nat) (cost : ℚ) (j : Job) : Job :=
  if j.id = primary_id then { j with total_cost := j.total_cost + cost } else j

/-- The target job-id set of ExpenseService._allocate_expense
(job_service_v2.py, lines 108-120): for a shared expense with a non-empty
job_ids list it is set(job_ids) with the primary id added; otherwise it is
the primary id alone. Python's set is rendered as the deduplicated list with
the primary id appended when absent. -/
def all_job_ids (primary_id : Nat) (e : ExpenseInput) : List Nat :=
  if e.shared then
    if e.job_ids ≠ [] then
      let deduped := e.job_ids.dedup
      if primary_id ∈ deduped then deduped else deduped ++ [primary_id]
    else [primary_id]
  else [primary_id]

/-- One allocation record returned per (job, expense) pair. -/
structure AllocRecord where
  expense_id : Nat
  name : String
  cost : ℚ
  job_id : Nat
deriving DecidableEq

/-- The per-target loop of ExpenseService._allocate_expense
(job_service_v2.py, lines 122-142): each iteration looks the job up, saves a
JobExpense row carrying the full cost, and adds the cost to total_cost only
when the target is the primary job. A missing job raises, aborting the loop;
the rows saved by earlier iterations are already committed and remain. -/
def alloc_loop (primary_id : Nat) (name : String) (cost : ℚ) :
    JobDB → List Nat → JobDB × Except Err (List AllocRecord)
  | db, [] => (db, .ok [])
  | db, jid :: rest =>
    match getJob db jid with
    | none => (db, .error .notFound)
    | some _ =>
      let expense_id := db.next_expense_id
      let db1 : JobDB :=
        { db with
          job_expenses := db.job_expenses ++ [{ id := expense_id, job_id := jid, name := name, cost := cost }]
          next_expense_id := db.next_expense_id + 1 }
      let db2 : JobDB :=
        if jid = primary_id then
          { db1 with jobs := db1.jobs.map (bump_total_cost primary_id cost) }
        else db1
      match alloc_loop primary_id name cost db2 rest with
      | (db3, .error e) => (db3, .error e)
      | (db3, .ok recs) =>
        (db3, .ok ({ expense_id := expense_id, name := name, cost := cost, job_id := jid } :: recs))

/-- ExpenseService._allocate_expense (job_service_v2.py, lines 101-142). -/
def allocate_expense (db : JobDB) (primary_job : Job) (e : ExpenseInput) :
    JobDB × Except Err (List AllocRecord) :=
  alloc_loop primary_job.id e.name e.cost db (all_job_ids primary_job.id e)

/-- ExpenseService.allocate_expenses (job_service_v2.py, lines 87-99):
allocates each expense in turn; an exception propagates, keeping the state
already committed by the earlier expenses. -/
def allocate_expenses (primary_job : Job) :
    JobDB → List ExpenseInput → JobDB × Except Err (List AllocRecord)
  | db, [] => (db, .ok [])
  | db, e :: rest =>
    match allocate_expense db primary_job e with
    | (db1, .error err) => (db1, .error err)
    | (db1, .ok recs) =>
      match allocate_expenses primary_job db1 rest with
      | (db2, .error err) => (db2, .error err)
      | (db2, .ok more) => (db2, .ok (recs ++ more))

/-- The `timeframe` dict of the creation payload (keys "start" and "end";
the second is renamed because `end` is reserved). -/
structure Timeframe where
  start : Option Int
  end_ : Option Int
deriving DecidableEq

/-- The creation payload of JobService.create_job, with the defaults of
_create_job_record already applied (progress_status "pending", job_type
"in_house", numeric fields 0). -/
structure CreateJobData where
  client_id : Nat
  description : String
  progress_status : JobProgressStatus
  job_type : String
  vendor_name : Option String
  vendor_cost_per_unit : ℚ
  total_units : Nat
  pricing_per_unit : ℚ
  timeframe : Timeframe
  pricing_input : ℚ
  expenses : List ExpenseInput
deriving DecidableEq

/-- JobService._create_job_record (job_service_v2.py, lines 166-199): builds
the Job object, applies the timeframe with its start-after-end check, sets
total_cost from pricing_input and saves. The check raises before the save,
so a date failure persists nothing. -/
def create_job_record (db : JobDB) (data : CreateJobData) :
    Except Err (JobDB × Job) :=
  let job0 : Job :=
    { id := db.next_job_id
      client_id := data.client_id
      description := data.description
      progress_status := data.progress_status
      job_type := data.job_type
      vendor_name := data.vendor_name
      vendor_cost_per_unit := data.vendor_cost_per_unit
      total_units := data.total_units
      pricing_per_unit := data.pricing_per_unit
      start_date := none
      end_date := none
      completed_at := none
      cancelled_at := none
      cancellation_reason := none
      last_status_change := none
      total_cost := 0
      total_amount := 0
      amount_paid := 0
      payment_status := "Unpaid"
      total_profit := none }
  let job1 :=
    match data.timeframe.start with
    | some s => { job0 with start_date := some s }
    | none => job0
  let job2 :=
    match data.timeframe.end_ with
    | some e => { job1 with end_date := some e }
    | none => job1
  let bad_dates :=
    match data.timeframe.end_, job1.start_date with
    | some e, some s => decide (s > e)
    | _, _ => false
  if bad_dates then .error .invalidRange
  else
    let job3 := { job2 with total_cost := data.pricing_input }
    .ok ({ db with jobs := db.jobs ++ [job3], next_job_id := db.next_job_id + 1 }, job3)

/-- JobService.create_job (job_service_v2.py, lines 151-164): creates the job
record, then allocates any expenses in the payload. The except-branch calls
db.session.rollback(), but every save along the way already committed, so on
a failure inside the expense allocation the committed Job row and the
JobExpense rows of the earlier iterations remain in the state. -/
def create_job (db : JobDB) (data : CreateJobData) :
    JobDB × Except Err (Job × List AllocRecord) :=
  match create_job_record db data with
  | .error e => (db, .error e)
  | .ok (db1, job) =>
    match allocate_expenses job db1 data.expenses with
    | (db2, .error e) => (db2, .error e)
    | (db2, .ok recs) => (db2, .ok ((getJob db2 job.id).getD job, recs))

/-- The allowed-transition table of JobProgressService.update
(job_service_v2.py, lines 236-254). -/
def allowedTransitions : JobProgressStatus → List JobProgressStatus
  | .pending => [.in_progress, .cancelled]
  | .in_progress => [.on_hold, .completed, .cancelled]
  | .on_hold => [.in_progress, .cancelled]
  | .completed => [.in_progress]
  | .cancelled => []

/-- Payload of JobProgressService.update (already validated by the route's
schema; `progress_status` arrives as an enum value). -/
structure ProgressData where
  progress_status : JobProgressStatus
  completed_at : Option Int
  reason_for_status_change : Option String
  notes : Option String
deriving DecidableEq

/-- JobProgressService.update (job_service_v2.py, lines 217-278). `now` is
datetime.now(). An invalid transition raises before any field of the job is
touched. Cancelling without a reason raises after the in-memory mutations
but before job.save(), so nothing is persisted on that path either. A
supplied non-empty notes string yields a JobNote row. Python truthiness
makes the empty string count as a missing reason or missing notes. -/
def progress_update (job : Job) (data : ProgressData) (now : Int) :
    Except Err (Job × Option JobNote) :=
  let previous_status := job.progress_status
  let new_status := data.progress_status
  if new_status ∉ allowedTransitions previous_status then .error .invalidTransition
  else
    let job1 := { job with progress_status := new_status, last_status_change := some now }
    let finish := fun (job2 : Job) =>
      let note? :=
        match data.notes with
        | some n => if n = "" then none else some ({ job_id := job.id, note := n } : JobNote)
        | none => none
      Except.ok (job2, note?)
    if new_status = .completed then
      finish { job1 with completed_at := some (data.completed_at.getD now) }
    else if new_status = .cancelled then
      let job2 :=
        { job1 with cancelled_at := some now
                    cancellation_reason := data.reason_for_status_change }
      match data.reason_for_status_change with
      | none => .error .missingReason
      | some r => if r = "" then .error .missingReason else finish job2
    else finish job1

/-- The persisted effect of a JobProgressService.update call: on success the
updated job is saved; on a raise the stored row keeps its previous values. -/
def progress_update_and_save (job : Job) (data : ProgressData) (now : Int) :
    Job × Except Err (Job × Option JobNote) :=
  match progress_update job data now with
  | .error e => (job, .error e)
  | .ok (job', note?) => (job', .ok (job', note?))

/-- Payload of JobTimeframeService.update. -/
structure TimeframeData where
  start_date : Option Int
  end_date : Option Int
  reason_for_change : Option String
deriving DecidableEq

/-- JobTimeframeService.update together with _log_timeframe_change
(job_service_v2.py, lines 390-427): the new start and end dates are applied
to the job first; only then, when a (truthy) reason is supplied, is the
change-log row built from the job's current start_date/end_date fields. -/
def timeframe_update (job : Job) (data : TimeframeData) :
    Except Err (Job × Option JobTimeframeChangeLog) :=
  let job1 :=
    match data.start_date with
    | some s => { job with start_date := some s }
    | none => job
  let finish := fun (job2 : Job) =>
    let log? :=
      match data.reason_for_change with
      | some r =>
        if r = "" then none
        else some ({ job_id := job2.id
                     old_start_date := job2.start_date
                     old_end_date := job2.end_date
                     reason := r } : JobTimeframeChangeLog)
      | none => none
    Except.ok (job2, log?)
  match data.end_date with
  | some e =>
    match job1.start_date with
    | some s => if e < s then .error .invalidRange else finish { job1 with end_date := some e }
    | none => finish { job1 with end_date := some e }
  | none => finish job1

/-- Job.update_payment (app/models/job.py, lines 105-122): adds the payment
to amount_paid, recomputes payment_status from the new amount, and (because
total_cost is always set) recomputes total_profit. -/
def update_payment (job : Job) (payment_amount : ℚ) : Job :=
  let amount_paid := job.amount_paid + payment_amount
  let payment_status :=
    if amount_paid ≥ job.total_amount then "Paid"
    else if amount_paid > 0 then "Partially Paid"
    else "Unpaid"
  { job with
    amount_paid := amount_paid
    payment_status := payment_status
    total_profit := some (job.total_amount - job.total_cost) }

/-- The status-recomputation rule of Job.update_payment, extracted: Paid when
amount_paid covers total_amount, Partially Paid when something but not all is
paid, Unpaid otherwise. -/
def derived_payment_status (amount_paid total_amount : ℚ) : String :=
  if amount_paid ≥ total_amount then "Paid"
  else if amount_paid > 0 then "Partially Paid"
  else "Unpaid"

/-- The new JobExpense rows a successful allocation loop appends: one row per
target job id, consecutively numbered from the database counter, each
carrying the full cost. -/
def expense_rows_for (start_id : Nat) (name : String) (cost : ℚ) :
    List Nat → List JobExpense
  | [] => []
  | jid :: rest =>
    { id := start_id, job_id := jid, name := name, cost := cost } ::
      expense_rows_for (start_id + 1) name cost rest

/-- A sample material row used by the concrete corollaries below. -/
def sampleMaterial (stock : ℚ) : Material :=
  { id := 1
    stock_level := stock
    unit_of_measure := "sq_m"
    min_threshold := 2
    cost_per_unit := 5 }

/-- A sample in-house material row used by the machine-usage corollaries. -/
def sampleInHouseMaterial (stock : ℚ) : InHouseMaterial :=
  { id := 1
    name := "vinyl"
    type_ := "roll"
    stock_level := stock
    min_threshold := 2
    cost_per_sq_meter := 5 }

/-- A sample job row with the model's default field values. -/
def baseJob : Job :=
  { id := 1
    client_id := 1
    description := "print run"
    progress_status := .pending
    job_type := "in_house"
    vendor_name := none
    vendor_cost_per_unit := 0
    total_units := 0
    pricing_per_unit := 0
    start_date := none
    end_date := none
    completed_at := none
    cancelled_at := none
    cancellation_reason := none
    last_status_change := none
    total_cost := 0
    total_amount := 0
    amount_paid := 0
    payment_status := "Unpaid"
    total_profit := none }

/-- Ledger slice holding the sample material at stock level 10 and no rows. -/
def ledgerStart : LedgerState :=
  { material := sampleMaterial 10, transactions := [], usages := [] }

/-- A usage recording of 3 units with no wastage. -/
def usageThree : UsageData :=
  { material_id := 1, job_id := 1, quantity_used := 3, wastage := 0, user_id := 1, notes := "" }

/-- A usage recording of 8 units with wastage 3 (total 11, above stock 10). -/
def usageEleven : UsageData :=
  { material_id := 1, job_id := 1, quantity_used := 8, wastage := 3, user_id := 1, notes := "" }

/-- A restock of 4 units. -/
def sampleRestock : RestockData :=
  { material_id := 1, quantity := 4, user_id := 1, reference_number := none, notes := "" }

/-- An adjustment setting the stock level to 6. -/
def sampleAdjust : AdjustData :=
  { material_id := 1, new_stock_level := 6, user_id := 1, reference_number := none, notes := "" }

/-- The material returned by the sample restock (10 + 4). -/
def restockedMaterial : Material := { sampleMaterial 10 with stock_level := 14 }

/-- The transaction returned by the sample restock. -/
def restockTx : StockTransaction :=
  { material_id := 1
    transaction_type := "RESTOCK"
    quantity := 4
    previous_stock := 10
    new_stock := 14
    user_id := 1
    reference_number := none
    notes := "" }

/-- The material returned by the sample adjustment (set to 6). -/
def adjustedMaterial : Material := { sampleMaterial 10 with stock_level := 6 }

/-- The transaction returned by the sample adjustment (delta 6 - 10 = -4). -/
def adjustTx : StockTransaction :=
  { material_id := 1
    transaction_type := "ADJUSTMENT"
    quantity := -4
    previous_stock := 10
    new_stock := 6
    user_id := 1
    reference_number := none
    notes := "" }

/-- Database with one existing job (id 1) for the job-creation scenario. -/
def dbOneJob : JobDB :=
  { jobs := [baseJob], job_expenses := [], next_job_id := 2, next_expense_id := 1 }

/-- A creation payload whose second expense targets the missing job 99: the
first expense allocates fine, the second raises NotFound. -/
def createDataBadExpense : CreateJobData :=
  { client_id := 7
    description := "flyers"
    progress_status := .pending
    job_type := "in_house"
    vendor_name := none
    vendor_cost_per_unit := 0
    total_units := 0
    pricing_per_unit := 0
    timeframe := { start := none, end_ := none }
    pricing_input := 0
    expenses := [ { name := "Ink", cost := 50, shared := false, job_ids := [] },
                  { name := "Rent", cost := 100, shared := true, job_ids := [99] } ] }

/-- Database with three jobs (ids 1, 2, 3; job 2 starts at total_cost 5). -/
def dbThreeJobs : JobDB :=
  { jobs := [ baseJob
            , { baseJob with id := 2, total_cost := 5 }
            , { baseJob with id := 3 } ]
    job_expenses := []
    next_job_id := 4
    next_expense_id := 1 }

/-- The shared Rent expense of the spec's allocation scenario. -/
def rentExpense : ExpenseInput :=
  { name := "Rent", cost := 100, shared := true, job_ids := [2, 3] }

/-- A job whose stored payment_status is consistent with its amounts:
nothing paid toward a total of 10. -/
def unpaidJob : Job := { baseJob with total_amount := 10, total_cost := 4 }

/-- C5: a DeductUsage call with positive quantity, non-negative wastage and
quantity + wastage above the stock level fails with InsufficientStock, and
the ledger state is unchanged: the stock level keeps its value and no
MaterialUsage row is created. -/
theorem deduct_usage_insufficient_stock_fails
    (st : LedgerState) (d : UsageData)
    (hq : 0 < d.quantity_used) (hw : 0 ≤ d.wastage)
    (hs : st.material.stock_level < d.quantity_used + d.wastage) :
    record_material_usage (some st.material) d = (some st.material, .error .insufficientStock) ∧
    ledger_step st (.deductUsage d) = st := by
  have h1 : ¬ d.quantity_used ≤ 0 := not_le.mpr hq
  have h2 : ¬ d.wastage < 0 := not_lt.mpr hw
  constructor
  · simp [record_material_usage, h1, h2, hs]
  · simp [ledger_step, record_material_usage, h1, h2, hs]

/-- Witness for C5: stock 10, quantity 8, wastage 3. -/
theorem deduct_usage_insufficient_stock_fails_witness :
    record_material_usage (some ledgerStart.material) usageEleven =
      (some ledgerStart.material, .error .insufficientStock) ∧
    ledger_step ledgerStart (.deductUsage usageEleven) = ledgerStart :=
  deduct_usage_insufficient_stock_fails ledgerStart usageEleven
    (by norm_num [usageEleven]) (by norm_num [usageEleven])
    (by norm_num [usageEleven, ledgerStart, sampleMaterial])

/-- C10: every successful Restock and every successful AdjustStock returns a
StockTransaction with new_stock = previous_stock + quantity, whose
previous_stock is the stock level before the call and whose new_stock is the
stock level of the saved material after the call. -/
theorem ledger_snapshot_consistency (m : Material) (rd : RestockData) (ad : AdjustData) :
    (∀ m' tx, restock_material (some m) rd = .ok (m', tx) →
      tx.new_stock = tx.previous_stock + tx.quantity ∧
      tx.previous_stock = m.stock_level ∧ tx.new_stock = m'.stock_level) ∧
    (∀ m' tx, adjust_stock (some m) ad = .ok (m', tx) →
      tx.new_stock = tx.previous_stock + tx.quantity ∧
      tx.previous_stock = m.stock_level ∧ tx.new_stock = m'.stock_level) := by
  constructor
  · intro m' tx h
    by_cases hq : rd.quantity ≤ 0
    · simp [restock_material, hq] at h
    · simp only [restock_material, if_neg hq] at h
      obtain ⟨hm, htx⟩ := Prod.mk.injEq .. ▸ (Except.ok.injEq .. ▸ h)
      subst hm
      subst htx
      refine ⟨rfl, rfl, rfl⟩
  · intro m' tx h
    by_cases hn : ad.new_stock_level < 0
    · simp [adjust_stock, hn] at h
    · simp only [adjust_stock, if_neg hn] at h
      obtain ⟨hm, htx⟩ := Prod.mk.injEq .. ▸ (Except.ok.injEq .. ▸ h)
      subst hm
      subst htx
      refine ⟨by ring, rfl, rfl⟩

/-- Witness for C10: restocking 4 onto stock 10 and adjusting stock 10 to 6. -/
theorem ledger_snapshot_consistency_witness :
    (restockTx.new_stock = restockTx.previous_stock + restockTx.quantity ∧
     restockTx.previous_stock = (sampleMaterial 10).stock_level ∧
     restockTx.new_stock = restockedMaterial.stock_level) ∧
    (adjustTx.new_stock = adjustTx.previous_stock + adjustTx.quantity ∧
     adjustTx.previous_stock = (sampleMaterial 10).stock_level ∧
     adjustTx.new_stock = adjustedMaterial.stock_level) :=
  ⟨(ledger_snapshot_consistency (sampleMaterial 10) sampleRestock sampleAdjust).1
      restockedMaterial restockTx
      (by norm_num [restock_material, sampleRestock, sampleMaterial, restockedMaterial, restockTx]),
   (ledger_snapshot_consistency (sampleMaterial 10) sampleRestock sampleAdjust).2
      adjustedMaterial adjustTx
      (by norm_num [adjust_stock, sampleAdjust, sampleMaterial, adjustedMaterial, adjustTx])⟩

/-- C4 (code bug): recording machine usage of meters 0 to 50 through the
in-house machine-usage route against a material stocked at 10 commits a
deduction of 50 * 1.05 = 52.5 with no sufficiency check, leaving the stock
level at -42.5 before the request then dies on the reading constructor: the
no-negative-stock invariant is violated from a non-negative state, and the
committed negative stock survives the failed request. -/
theorem machine_usage_negative_stock :
    (log_machine_usage_route true (some (sampleInHouseMaterial 10)) [] 0 50).1.1 =
      some { sampleInHouseMaterial 10 with stock_level := -(85/2) } ∧
    (log_machine_usage_route true (some (sampleInHouseMaterial 10)) [] 0 50).1.2 = [] ∧
    (log_machine_usage_route true (some (sampleInHouseMaterial 10)) [] 0 50).2 =
      .error .typeError ∧
    (-(85/2) : ℚ) < 0 := by
  refine ⟨?_, rfl, rfl, by norm_num⟩
  norm_num [log_machine_usage_route, deduct_material_usage_v1, calculate_material_usage,
    sampleInHouseMaterial]

/-- C9 counterexample: a machine-usage request with endMeter 4 < startMeter
10 does not behave as claimed on either machine-usage recorder. Through the
in-house route the material's stock IS changed — the committed deduction of
the negative usage -6.3 raises stock 100 to 106.3 — and the cited
MachineUsageService.log_machine_usage fails with TypeError at the reading
constructor, not with InvalidRange. -/
theorem machine_usage_no_range_check_counterexample :
    (4 : ℚ) < 10 ∧
    (log_machine_usage_route true (some (sampleInHouseMaterial 100)) [] 10 4).1.1 =
      some { sampleInHouseMaterial 100 with stock_level := 1063/10 } ∧
    (1063/10 : ℚ) ≠ 100 ∧
    (log_machine_usage (some (sampleMaterial 100)) [] 1 10 4).2 = .error .typeError ∧
    Err.typeError ≠ Err.invalidRange := by
  refine ⟨by norm_num, ?_, by norm_num, rfl, by decide⟩
  norm_num [log_machine_usage_route, deduct_material_usage_v1, calculate_material_usage,
    sampleInHouseMaterial]

/-- C9 amended: the reading-creation endpoint MachineReadingService.create_reading
does fail with InvalidRange when endMeter < startMeter, persisting nothing
(and that path never touches stock). The cited deducting recorder,
MachineUsageService.log_machine_usage, instead fails with TypeError on every
call — the constructor passes material_usage, which models/machine's
MachineReading does not map — persisting nothing and touching no stock. The
in-house machine-usage route performs no range validation at all: it always
commits the margin-adjusted deduction (a stock increase when endMeter <
startMeter) and then fails on the same constructor, persisting no reading. -/
theorem machine_usage_range_amended :
    (∀ (job_found machine_found : Bool) (rs : List MachineReadingRow) (d : ReadingData),
        d.end_meter < d.start_meter →
        create_reading job_found machine_found rs d = .error .invalidRange) ∧
    (∀ (m? : Option Material) (rs : List MachineReadingRow) (j : Nat) (s e : ℚ),
        log_machine_usage m? rs j s e = ((m?, rs), .error .typeError)) ∧
    (∀ (m : InHouseMaterial) (rs : List MachineReadingRow) (s e : ℚ),
        log_machine_usage_route true (some m) rs s e =
          ((some { m with stock_level := m.stock_level - calculate_material_usage s e (1/20) },
            rs),
           .error .typeError)) := by
  refine ⟨?_, ?_, ?_⟩
  · intro job_found machine_found rs d h
    simp [create_reading, h]
  · intro m? rs j s e
    rfl
  · intro m rs s e
    rfl

/-- Witness for C9's amended statement: create_reading rejects end meter 4
against start meter 10. -/
theorem machine_usage_range_amended_witness :
    create_reading true true []
      { job_id := 1, machine_id := 1, start_meter := 10, end_meter := 4, operator_id := none } =
      .error .invalidRange :=
  machine_usage_range_amended.1 true true [] _ (by norm_num)

/-- C7 (code bug): updating the start date from 1 to 2 with a reason yields a
change-log row whose old_start_date is 2, the post-update value, not the
pre-update value 1 that the claim (and the source's own docstring and column
names) call for: the source applies the new dates to the job before building
the log row from the job's fields. -/
theorem timeframe_log_snapshots_post_update :
    timeframe_update { baseJob with start_date := some 1, end_date := some 10 }
        { start_date := some 2, end_date := none, reason_for_change := some "reschedule" } =
      .ok ({ baseJob with start_date := some 2, end_date := some 10 },
           some { job_id := 1, old_start_date := some 2, old_end_date := some 10,
                  reason := "reschedule" }) ∧
    ({ baseJob with start_date := some 1, end_date := some 10 } : Job).start_date = some 1 ∧
    (some 2 : Option Int) ≠ some 1 := by
  refine ⟨rfl, rfl, by decide⟩

/-- C8 counterexample: on a fresh job (total_amount 0, amount_paid 0, stored
payment_status "Unpaid"), RecordPayment(job, 0) does not leave payment_status
unchanged: the recomputation sees amount_paid >= total_amount and flips the
status to "Paid". -/
theorem record_payment_zero_counterexample :
    baseJob.payment_status = "Unpaid" ∧
    baseJob.amount_paid = 0 ∧
    (update_payment baseJob 0).amount_paid = 0 ∧
    (update_payment baseJob 0).payment_status = "Paid" ∧
    ("Paid" : String) ≠ "Unpaid" := by
  refine ⟨rfl, rfl, ?_, ?_, by decide⟩
  · norm_num [update_payment, baseJob]
  · norm_num [update_payment, baseJob]

/-- C8 amended: RecordPayment(job, 0) always leaves amount_paid unchanged,
and leaves payment_status unchanged whenever the stored status already equals
the recomputed status of (amount_paid, total_amount) - the recomputation can
change an inconsistent stored status, as on a fresh job with total_amount 0.
RecordPayment(job, total_amount) from amount_paid = 0 yields payment_status
"Paid" and total_profit = total_amount - total_cost. -/
theorem record_payment_amended (job : Job) :
    (update_payment job 0).amount_paid = job.amount_paid ∧
    (job.payment_status = derived_payment_status job.amount_paid job.total_amount →
      (update_payment job 0).payment_status = job.payment_status) ∧
    (job.amount_paid = 0 →
      (update_payment job job.total_amount).payment_status = "Paid" ∧
      (update_payment job job.total_amount).total_profit =
        some (job.total_amount - job.total_cost)) := by
  refine ⟨by simp [update_payment], ?_, ?_⟩
  · intro h
    rw [h]
    simp [update_payment, derived_payment_status]
  · intro h0
    refine ⟨?_, rfl⟩
    simp [update_payment, h0]

/-- Witness for C8's amended statement: a consistent unpaid job (10 owed,
nothing paid, cost 4). -/
theorem record_payment_amended_witness :
    (update_payment unpaidJob 0).amount_paid = unpaidJob.amount_paid ∧
    (update_payment unpaidJob 0).payment_status = unpaidJob.payment_status ∧
    (update_payment unpaidJob unpaidJob.total_amount).payment_status = "Paid" ∧
    (update_payment unpaidJob unpaidJob.total_amount).total_profit =
      some (unpaidJob.total_amount - unpaidJob.total_cost) :=
  ⟨(record_payment_amended unpaidJob).1,
   (record_payment_amended unpaidJob).2.1 (by decide),
   ((record_payment_amended unpaidJob).2.2 (by decide)).1,
   ((record_payment_amended unpaidJob).2.2 (by decide)).2⟩

/-- C6: for every job and every target status outside the allowed-transition
table for the job's current status, UpdateProgress raises InvalidTransition
and the stored job keeps all its fields, in particular progress_status; with
allowedTransitions cancelled = [], cancelled is terminal. -/
theorem progress_invalid_transition_rejected (job : Job) (data : ProgressData) (now : Int)
    (h : data.progress_status ∉ allowedTransitions job.progress_status) :
    progress_update_and_save job data now = (job, .error .invalidTransition) := by
  simp [progress_update_and_save, progress_update, h]

/-- Witness for C6: attempting cancelled to in_progress. -/
theorem progress_invalid_transition_rejected_witness :
    progress_update_and_save { baseJob with progress_status := .cancelled }
      { progress_status := .in_progress, completed_at := none,
        reason_for_status_change := none, notes := none } 0 =
      ({ baseJob with progress_status := .cancelled }, .error .invalidTransition) :=
  progress_invalid_transition_rejected _ _ 0 (by decide)

/-- C1 counterexample: one sufficient-stock DeductUsage of 3 units from
stock 10 commits stock 7 while adding no StockTransaction at all, so final
stock differs from initial stock plus the sum of recorded transaction deltas
(10 + 0). -/
theorem stock_reconciliation_counterexample :
    (ledger_replay ledgerStart [.deductUsage usageThree]).material.stock_level = 7 ∧
    txDeltaSum (ledger_replay ledgerStart [.deductUsage usageThree]).transactions = 0 ∧
    ledgerStart.material.stock_level = 10 ∧
    txDeltaSum ledgerStart.transactions = 0 ∧
    (7 : ℚ) ≠ 10 + 0 := by
  refine ⟨?_, ?_, rfl, rfl, by norm_num⟩
  · norm_num [ledger_replay, ledger_step, record_material_usage, save_material_usage,
      ledgerStart, usageThree, sampleMaterial]
  · norm_num [ledger_replay, ledger_step, record_material_usage, save_material_usage,
      ledgerStart, usageThree, sampleMaterial, txDeltaSum]

/-- A restock or adjustment step changes the stock level by exactly the
transaction delta it appends. -/
theorem ledger_step_stock (st : LedgerState) (op : StockOp)
    (h : op.isDeductUsage = false) :
    (ledger_step st op).material.stock_level =
      st.material.stock_level
      + (txDeltaSum (ledger_step st op).transactions - txDeltaSum st.transactions) := by
  cases op with
  | restock d =>
    by_cases hq : d.quantity ≤ 0
    · simp [ledger_step, restock_material, hq]
    · simp [ledger_step, restock_material, hq, txDeltaSum]
  | adjust d =>
    by_cases hn : d.new_stock_level < 0
    · simp [ledger_step, adjust_stock, hn]
    · simp [ledger_step, adjust_stock, hn, txDeltaSum]
  | deductUsage d =>
    simp [StockOp.isDeductUsage] at h

/-- No ledger operation ever appends a MaterialUsage row: deduction aside,
restock and adjustment do not touch that table, and the deduction's
usage.save() always dies on the unset NOT NULL cost column. -/
theorem ledger_step_usages (st : LedgerState) (op : StockOp) :
    (ledger_step st op).usages = st.usages := by
  cases op with
  | restock d =>
    by_cases hq : d.quantity ≤ 0
    · simp [ledger_step, restock_material, hq]
    · simp [ledger_step, restock_material, hq]
  | adjust d =>
    by_cases hn : d.new_stock_level < 0
    · simp [ledger_step, adjust_stock, hn]
    · simp [ledger_step, adjust_stock, hn]
  | deductUsage d =>
    by_cases h1 : d.quantity_used ≤ 0
    · simp [ledger_step, record_material_usage, h1]
    · by_cases h2 : d.wastage < 0
      · simp [ledger_step, record_material_usage, h1, h2]
      · by_cases h3 : st.material.stock_level < d.quantity_used + d.wastage
        · simp [ledger_step, record_material_usage, h1, h2, h3]
        · simp [ledger_step, record_material_usage, save_material_usage, h1, h2, h3]

/-- C1 amended: Restock and AdjustStock pair every stock mutation with a
StockTransaction whose delta matches, so over any DeductUsage-free sequence
the final stock level equals the initial stock level plus the sum of the
recorded transaction deltas. DeductUsage breaks the reconciliation twice
over: it writes no StockTransaction, and its MaterialUsage row is never
persisted either (the NOT NULL cost column is never set, so usage.save()
raises IntegrityError after material.save() already committed the
decrement) — a sufficient-stock deduction commits a stock decrement recorded
in no ledger table at all, and the replayed usage-row table never grows. -/
theorem stock_reconciliation_amended :
    (∀ (st : LedgerState) (ops : List StockOp),
        (∀ op ∈ ops, op.isDeductUsage = false) →
        (ledger_replay st ops).material.stock_level =
          st.material.stock_level
          + (txDeltaSum (ledger_replay st ops).transactions - txDeltaSum st.transactions)) ∧
    (∀ (st : LedgerState) (ops : List StockOp),
        (ledger_replay st ops).usages = st.usages) ∧
    (∀ (m : Material) (d : UsageData),
        0 < d.quantity_used → 0 ≤ d.wastage →
        d.quantity_used + d.wastage ≤ m.stock_level →
        record_material_usage (some m) d =
          (some { m with stock_level := m.stock_level - (d.quantity_used + d.wastage) },
           .error .integrityError)) := by
  refine ⟨?_, ?_, ?_⟩
  · intro st ops h
    induction ops generalizing st with
    | nil => simp [ledger_replay]
    | cons op ops ih =>
      have hop : op.isDeductUsage = false := h op (List.mem_cons_self op ops)
      have hstep := ledger_step_stock st op hop
      have hrest := ih (ledger_step st op) (fun o ho => h o (List.mem_cons_of_mem _ ho))
      simp only [ledger_replay]
      linarith
  · intro st ops
    induction ops generalizing st with
    | nil => simp [ledger_replay]
    | cons op ops ih =>
      simp only [ledger_replay]
      rw [ih (ledger_step st op), ledger_step_usages]
  · intro m d hq hw hs
    have h1 : ¬ d.quantity_used ≤ 0 := not_le.mpr hq
    have h2 : ¬ d.wastage < 0 := not_lt.mpr hw
    have h3 : ¬ m.stock_level < d.quantity_used + d.wastage := not_lt.mpr hs
    simp [record_material_usage, save_material_usage, h1, h2, h3]

/-- Witness for C1's amended statement: a lone restock of 4 onto stock 10,
the empty growth of the usage table under a deduction replay, and the
committed-but-unrecorded deduction of 3 from stock 10. -/
theorem stock_reconciliation_amended_witness :
    ((ledger_replay ledgerStart [.restock sampleRestock]).material.stock_level =
      ledgerStart.material.stock_level
      + (txDeltaSum (ledger_replay ledgerStart [.restock sampleRestock]).transactions
         - txDeltaSum ledgerStart.transactions)) ∧
    (ledger_replay ledgerStart [.deductUsage usageThree]).usages = ledgerStart.usages ∧
    record_material_usage (some (sampleMaterial 10)) usageThree =
      (some { sampleMaterial 10 with
                stock_level := (sampleMaterial 10).stock_level -
                  (usageThree.quantity_used + usageThree.wastage) },
       .error .integrityError) :=
  ⟨stock_reconciliation_amended.1 ledgerStart [.restock sampleRestock] (by decide),
   stock_reconciliation_amended.2.1 ledgerStart [.deductUsage usageThree],
   stock_reconciliation_amended.2.2 (sampleMaterial 10) usageThree
     (by norm_num [usageThree]) (by norm_num [usageThree])
     (by norm_num [usageThree, sampleMaterial])⟩

/-- C2 (code bug): creating a job whose expense list ends with an expense
targeting the missing job 99 fails with NotFound, yet afterwards the new Job
row (id 2) is still present and the JobExpense row committed by the first
expense remains: each save() committed immediately, so the rollback in
create_job's except-branch undoes nothing. -/
theorem create_job_partial_commit_on_failure :
    (create_job dbOneJob createDataBadExpense).2 = .error .notFound ∧
    ((create_job dbOneJob createDataBadExpense).1.jobs.map (fun j => j.id)) = [1, 2] ∧
    (create_job dbOneJob createDataBadExpense).1.job_expenses =
      [{ id := 1, job_id := 2, name := "Ink", cost := 50 }] := by
  refine ⟨?_, ?_, ?_⟩ <;>
    norm_num [create_job, create_job_record, allocate_expenses, allocate_expense,
      all_job_ids, alloc_loop, getJob, bump_total_cost, List.find?, List.dedup,
      dbOneJob, createDataBadExpense, baseJob]

/-- C3 counterexample: allocating the shared Rent expense (cost 100,
job_ids [2,3]) from primary job 1 creates the three JobExpense rows, each
with the full cost, but job 2's total_cost stays at 5 instead of rising to
105: only the primary job's total_cost is updated, contradicting the claim
that each participating job's total_cost increases by the cost. -/
theorem expense_replication_counterexample :
    (allocate_expense dbThreeJobs { baseJob with id := 1 } rentExpense).2 =
      .ok [ { expense_id := 1, name := "Rent", cost := 100, job_id := 2 },
            { expense_id := 2, name := "Rent", cost := 100, job_id := 3 },
            { expense_id := 3, name := "Rent", cost := 100, job_id := 1 } ] ∧
    getJob (allocate_expense dbThreeJobs { baseJob with id := 1 } rentExpense).1 2 =
      some { baseJob with id := 2, total_cost := 5 } ∧
    (5 : ℚ) ≠ 5 + 100 := by
  refine ⟨rfl, rfl, by norm_num⟩

/-- bump_total_cost never changes the job's id. -/
theorem bump_total_cost_id (p : Nat) (c : ℚ) (j : Job) :
    (bump_total_cost p c j).id = j.id := by
  unfold bump_total_cost
  split <;> rfl

/-- Looking a job up after the primary-job cost update finds the bumped
version of whatever was found before. -/
theorem getJob_map_bump (jobs : List Job) (p : Nat) (c : ℚ) (jid : Nat) :
    (jobs.map (bump_total_cost p c)).find? (fun j => j.id = jid) =
      Option.map (bump_total_cost p c) (jobs.find? (fun j => j.id = jid)) := by
  rw [List.find?_map]
  have hpred : ((fun j : Job => decide (j.id = jid)) ∘ bump_total_cost p c) =
      (fun j : Job => decide (j.id = jid)) := by
    funext j
    simp [Function.comp, bump_total_cost_id]
  rw [hpred]

/-- The target id list of a shared expense has no duplicates. -/
theorem all_job_ids_nodup (p : Nat) (e : ExpenseInput) : (all_job_ids p e).Nodup := by
  simp only [all_job_ids]
  split
  · split
    · split
      · exact e.job_ids.nodup_dedup
      · next h =>
        exact (e.job_ids.nodup_dedup).append (List.nodup_singleton p)
          (List.disjoint_singleton.mpr h)
    · exact List.nodup_singleton p
  · exact List.nodup_singleton p

/-- The primary job always belongs to the target id list. -/
theorem primary_mem_all_job_ids (p : Nat) (e : ExpenseInput) : p ∈ all_job_ids p e := by
  simp only [all_job_ids]
  split
  · split
    · split
      · assumption
      · simp
    · simp
  · simp

/-- Specification of the allocation loop on a duplicate-free id list whose
ids all exist: it succeeds, appends exactly one full-cost JobExpense row per
id (consecutively numbered), bumps total_cost on the jobs list exactly when
the primary id is among the targets, and advances the expense counter by the
number of targets. -/
theorem alloc_loop_spec (primary_id : Nat) (name : String) (cost : ℚ) :
    ∀ (ids : List Nat) (db : JobDB), ids.Nodup →
      (∀ jid ∈ ids, (getJob db jid).isSome) →
      ∃ recs,
        alloc_loop primary_id name cost db ids =
          ({ jobs := if primary_id ∈ ids then db.jobs.map (bump_total_cost primary_id cost)
                     else db.jobs
             job_expenses := db.job_expenses ++ expense_rows_for db.next_expense_id name cost ids
             next_job_id := db.next_job_id
             next_expense_id := db.next_expense_id + ids.length }, .ok recs) := by
  intro ids
  induction ids with
  | nil =>
    intro db _ _
    refine ⟨[], ?_⟩
    simp [alloc_loop, expense_rows_for]
  | cons jid rest ih =>
    intro db hnd hex
    obtain ⟨hnotin, hnd'⟩ := List.nodup_cons.mp hnd
    have hj : (getJob db jid).isSome := hex jid (List.mem_cons_self jid rest)
    obtain ⟨j, hjeq⟩ := Option.isSome_iff_exists.mp hj
    by_cases hp : jid = primary_id
    · subst hp
      obtain ⟨recs, hrec⟩ := ih
        { jobs := List.map (bump_total_cost jid cost) db.jobs
          job_expenses := db.job_expenses ++
            [{ id := db.next_expense_id, job_id := jid, name := name, cost := cost }]
          next_job_id := db.next_job_id
          next_expense_id := db.next_expense_id + 1 }
        hnd'
        (by
          intro x hx
          have hx' := hex x (List.mem_cons_of_mem _ hx)
          simpa [getJob, getJob_map_bump, bump_total_cost_id] using hx')
      refine ⟨{ expense_id := db.next_expense_id, name := name, cost := cost, job_id := jid } :: recs, ?_⟩
      simp only [alloc_loop, hjeq, if_true]
      rw [hrec]
      simp [expense_rows_for, hnotin, Nat.add_assoc, Nat.add_comm 1 rest.length]
    · obtain ⟨recs, hrec⟩ := ih
        { jobs := db.jobs
          job_expenses := db.job_expenses ++
            [{ id := db.next_expense_id, job_id := jid, name := name, cost := cost }]
          next_job_id := db.next_job_id
          next_expense_id := db.next_expense_id + 1 }
        hnd'
        (by
          intro x hx
          exact hex x (List.mem_cons_of_mem _ hx))
      refine ⟨{ expense_id := db.next_expense_id, name := name, cost := cost, job_id := jid } :: recs, ?_⟩
      have hp' : ¬ (primary_id = jid) := fun h => hp h.symm
      simp only [alloc_loop, hjeq]
      simp only [if_neg hp]
      rw [hrec]
      simp [expense_rows_for, List.mem_cons, hp', Nat.add_assoc, Nat.add_comm 1 rest.length]

/-- C3 amended: for every shared allocation with non-empty jobIDs whose
targets all exist, exactly one JobExpense row is created per job in
jobIDs with the primary job included, each carrying the full undivided cost,
and the jobs table is rewritten by bump_total_cost: only the primary job's
total_cost grows by the cost, every other participating job's total_cost is
unchanged. -/
theorem expense_replication_amended (db : JobDB) (primary_job : Job) (e : ExpenseInput)
    (hshared : e.shared = true) (hne : e.job_ids ≠ [])
    (hex : ∀ jid ∈ all_job_ids primary_job.id e, (getJob db jid).isSome) :
    ∃ recs,
      allocate_expense db primary_job e =
        ({ jobs := db.jobs.map (bump_total_cost primary_job.id e.cost)
           job_expenses := db.job_expenses ++
             expense_rows_for db.next_expense_id e.name e.cost (all_job_ids primary_job.id e)
           next_job_id := db.next_job_id
           next_expense_id := db.next_expense_id + (all_job_ids primary_job.id e).length },
         .ok recs) := by
  obtain ⟨recs, h⟩ := alloc_loop_spec primary_job.id e.name e.cost
    (all_job_ids primary_job.id e) db (all_job_ids_nodup _ _) hex
  refine ⟨recs, ?_⟩
  unfold allocate_expense
  rw [h, if_pos (primary_mem_all_job_ids _ _)]

/-- Witness for C3's amended statement: the Rent scenario over jobs 1,2,3. -/
theorem expense_replication_amended_witness :
    ∃ recs,
      allocate_expense dbThreeJobs { baseJob with id := 1 } rentExpense =
        ({ jobs := dbThreeJobs.jobs.map
             (bump_total_cost ({ baseJob with id := 1 } : Job).id rentExpense.cost)
           job_expenses := dbThreeJobs.job_expenses ++
             expense_rows_for dbThreeJobs.next_expense_id rentExpense.name rentExpense.cost
               (all_job_ids ({ baseJob with id := 1 } : Job).id rentExpense)
           next_job_id := dbThreeJobs.next_job_id
           next_expense_id := dbThreeJobs.next_expense_id +
             (all_job_ids ({ baseJob with id := 1 } : Job).id rentExpense).length },
         .ok recs) :=
  expense_replication_amended dbThreeJobs { baseJob with id := 1 } rentExpense
    (by decide) (by decide) (by decide)
